import Mathlib

/-!
Shallow embedding of the Session & Conversation-Flow Engine of the
conversational commerce bot (src/services/user.service.ts: the
Supabase-backed `UserSessionService` and the `BotService` flow handlers;
src/services/shop.service.ts: `ShopService`).

Conventions of the embedding:
* TypeScript `string | null` / optional fields become `Option String`.
* `Date.now()` timestamps become a `Nat` parameter `now` threaded into each
  operation.
* The in-memory `Map<string, UserSession>` becomes an association list
  `List (String × UserSession)`; JS `Map.set` keeps the position of an
  existing key and appends a fresh key, which `mapSet` mirrors.
* Asynchronous collaborators (Supabase, ShopService queries, the WhatsApp
  transport) are oracles supplied as explicit parameters; a collaborator
  call that may throw is an `Except` value.
* Outbound sends are accumulated in order in a `List String` of message
  bodies, using the exact formatting of `whatsapp.service.ts`
  (`sendErrorMessage`, `sendSuccessMessage`, `sendProcessingMessage`).
-/

namespace Marketplace

/-- One apostrophe character, used inside message texts. -/
def sq : String := String.mk [Char.ofNat 39]

/-- The whitespace class of the JS `String.prototype.trim` (space, tab,
line terminators, vertical tab, form feed, NBSP, BOM, LS, PS). -/
def isJsWhitespace (c : Char) : Bool :=
  c = ' ' ∨ c = '\t' ∨ c = '\n' ∨ c = '\r' ∨ c = '\x0b' ∨ c = '\x0c'
    ∨ c.toNat = 0xA0 ∨ c.toNat = 0xFEFF ∨ c.toNat = 0x2028 ∨ c.toNat = 0x2029

/-- JS `s.trim()`: drop leading and trailing whitespace.  (Defined by
structural recursion on the character list so that proofs can evaluate
it; Lean's own `String.trim` is defined by well-founded recursion on
byte positions, which the kernel cannot unfold.) -/
def jsTrim (s : String) : String :=
  String.mk
    (((s.toList.dropWhile isJsWhitespace).reverse.dropWhile
        isJsWhitespace).reverse)

/-- JS template-literal rendering of a possibly-undefined string field
(`${x}` prints "undefined" when `x` is `undefined`). -/
def tmpl (o : Option String) : String := o.getD "undefined"

/-- JS template-literal rendering of a possibly-null value
(`${x}` prints "null" when `x` is `null`). -/
def tmplNull (o : Option String) : String := o.getD "null"

/-- JS `a || b` on a nullable string: `b` when `a` is null/undefined or
the empty string (both falsy). -/
def jsOrS (a : Option String) (b : String) : String :=
  match a with
  | none => b
  | some s => if s = "" then b else s

/-- The in-progress shop-creation data held in `userData.shopCreation`
(fields accumulate across the wizard steps; each may still be absent). -/
structure ShopDraft where
  name : Option String := none
  description : Option String := none
  category : Option String := none
deriving Repr, DecidableEq

/-- The open `userData` record, restricted to the keys the handlers read
and write (`pendingUserType`, `community`, `communityDisplayName`,
`shopCreation`, `shopId`). -/
structure UserData where
  pendingUserType : Option String := none
  community : Option String := none
  communityDisplayName : Option String := none
  shopCreation : Option ShopDraft := none
  shopId : Option String := none
deriving Repr, DecidableEq

/-- `UserSession` from user.service.ts. -/
structure UserSession where
  phoneNumber : String
  createdAt : Nat
  lastActivity : Nat
  userType : Option String := none
  currentFlow : Option String := none
  userData : UserData := {}
  preferences : List (String × String) := []
  community : Option String := none
  communityVoucher : Option String := none
  shopId : Option String := none
deriving Repr, DecidableEq

/-- A `Partial<UserSession>` argument to `updateSession`: `some x` marks a
field that is present in the partial object. -/
structure SessionUpdate where
  phoneNumber : Option String := none
  createdAt : Option Nat := none
  lastActivity : Option Nat := none
  userType : Option (Option String) := none
  currentFlow : Option (Option String) := none
  userData : Option UserData := none
  preferences : Option (List (String × String)) := none
  community : Option (Option String) := none
  communityVoucher : Option (Option String) := none
  shopId : Option (Option String) := none
deriving Repr, DecidableEq

/-- The `users` row shape consumed by the session-restore path
(`userService.getUserByPhone`) and by `handleCommunitySelection`. -/
structure DbUser where
  phone : String
  user_type : Option String := none
  user_data : Option UserData := none
  community : Option String := none
  voucher_balance : Nat := 0
  current_flow : Option String := none
  shop_id : Option String := none
deriving Repr, DecidableEq

/-- `getCommunityVoucher` (user.service.ts): the community → voucher
lookup, `undefined` for a null community (and for the falsy empty
string, since the source guards with `community ? … : undefined`). -/
def getCommunityVoucher : Option String → Option String
  | none => none
  | some c =>
    if c = "" then none
    else if c = "BAMEKA" then some "MUNKAP"
    else if c = "BATOUFAM" then some "MBIP TSWEFAP"
    else if c = "FONDJOMEKWET" then some "MBAM"
    else none

/-- `createSessionFromUser` (user.service.ts): rebuild a session from a
database row; `current_flow || 'main_menu'`, `user_data || {}`,
`community || undefined`, `shop_id || undefined` follow JS falsiness. -/
def createSessionFromUser (now : Nat) (u : DbUser) : UserSession :=
  { phoneNumber := u.phone
    createdAt := now
    lastActivity := now
    userType := u.user_type
    currentFlow := some (jsOrS u.current_flow "main_menu")
    userData := u.user_data.getD {}
    preferences := []
    community := match u.community with
      | none => none
      | some c => if c = "" then none else some c
    communityVoucher := getCommunityVoucher u.community
    shopId := match u.shop_id with
      | none => none
      | some i => if i = "" then none else some i }

/-- Association-list lookup standing for `Map.get`. -/
def mapGet (m : List (String × UserSession)) (k : String) : Option UserSession :=
  match m.find? (fun p => p.1 = k) with
  | some p => some p.2
  | none => none

/-- `Map.set`: replace in place when the key exists, append otherwise. -/
def mapSet (m : List (String × UserSession)) (k : String) (v : UserSession) :
    List (String × UserSession) :=
  if (m.find? (fun p => p.1 = k)).isSome then
    m.map (fun p => if p.1 = k then (k, v) else p)
  else
    m ++ [(k, v)]

/-- `Map.delete`. -/
def mapDel (m : List (String × UserSession)) (k : String) :
    List (String × UserSession) :=
  m.filter (fun p => ¬ p.1 = k)

/-- The state owned by one `UserSessionService` instance. -/
structure SessionStore where
  sessions : List (String × UserSession) := []
  sessionTimeout : Nat := 30 * 60 * 1000
deriving Repr, DecidableEq

/-- The result of the database fetch a `getSession` miss falls back to:
`none` is a thrown `StoreError`, `some none` a clean "no record",
`some (some u)` a restorable record. -/
abbrev DbFetch := Option (Option DbUser)

/-- Is the session expired at `now` (`now − lastActivity > timeout`)? -/
def isExpired (timeout now : Nat) (s : UserSession) : Bool :=
  now - s.lastActivity > timeout

/-- Result of `getSession`: the returned value plus the store it leaves
behind. -/
structure GetResult where
  result : Option UserSession
  store : SessionStore
deriving Repr, DecidableEq

/-- `UserSessionService.getSession` (user.service.ts, Supabase-backed
version), after the phone-number assertion has passed.  A live entry is
returned with `lastActivity` touched; an expired entry is deleted and
`null` returned (no restore attempt); on a miss the database is
consulted, a fetch error is caught and degrades to `null`. -/
def getSessionStr (st : SessionStore) (now : Nat) (db : DbFetch)
    (phone : String) : GetResult :=
  match mapGet st.sessions phone with
  | some session =>
    if isExpired st.sessionTimeout now session then
      { result := none, store := { st with sessions := mapDel st.sessions phone } }
    else
      let s := { session with lastActivity := now }
      { result := some s, store := { st with sessions := mapSet st.sessions phone s } }
  | none =>
    match db with
    | none => { result := none, store := st }
    | some none => { result := none, store := st }
    | some (some dbUser) =>
      let s := createSessionFromUser now dbUser
      { result := some s, store := { st with sessions := mapSet st.sessions phone s } }

/-- `UserSessionService.createSession` after the assertion: a fresh
session in `main_menu` with empty `userData`, overwriting any entry. -/
def createSessionStr (st : SessionStore) (now : Nat) (phone : String) :
    UserSession × SessionStore :=
  let s : UserSession :=
    { phoneNumber := phone
      createdAt := now
      lastActivity := now
      userType := none
      currentFlow := some "main_menu"
      userData := {}
      preferences := [] }
  (s, { st with sessions := mapSet st.sessions phone s })

/-- The `Object.assign(session, safeUpdates)` merge of `updateSession`:
`phoneNumber` and `createdAt` have been destructured away, and
`lastActivity` is overwritten with `Date.now()` afterwards. -/
def applySafeUpdates (s : UserSession) (u : SessionUpdate) (now : Nat) :
    UserSession :=
  { s with
    userType := u.userType.getD s.userType
    currentFlow := u.currentFlow.getD s.currentFlow
    userData := u.userData.getD s.userData
    preferences := u.preferences.getD s.preferences
    community := u.community.getD s.community
    communityVoucher := u.communityVoucher.getD s.communityVoucher
    shopId := u.shopId.getD s.shopId
    lastActivity := now }

/-- `UserSessionService.updateSession` after the assertion: re-fetch
through `getSession` (with its expiry/restore behaviour), merge the
protected updates into a found session, touch `lastActivity`, store it
back.  The database write-through is fire-and-forget and does not touch
the map. -/
def updateSessionStr (st : SessionStore) (now : Nat) (db : DbFetch)
    (phone : String) (u : SessionUpdate) : Option UserSession × SessionStore :=
  let g := getSessionStr st now db phone
  match g.result with
  | some session =>
    let s := applySafeUpdates session u now
    (some s, { g.store with sessions := mapSet g.store.sessions phone s })
  | none => (none, g.store)

/-- `UserSessionService.deleteSession` after the assertion. -/
def deleteSessionStr (st : SessionStore) (phone : String) :
    Bool × SessionStore :=
  ((mapGet st.sessions phone).isSome,
   { st with sessions := mapDel st.sessions phone })

/-- `UserSessionService.cleanExpiredSessions`: delete every expired
session while iterating (equivalent to a filter) and return the count. -/
def cleanExpiredSessions (st : SessionStore) (now : Nat) :
    Nat × SessionStore :=
  ((st.sessions.filter (fun p => isExpired st.sessionTimeout now p.2)).length,
   { st with sessions :=
      st.sessions.filter (fun p => ¬ isExpired st.sessionTimeout now p.2) })

/-- `UserSessionService.getActiveSessions`: sweep first, then list. -/
def getActiveSessions (st : SessionStore) (now : Nat) :
    List UserSession × SessionStore :=
  let st := (cleanExpiredSessions st now).2
  (st.sessions.map (fun p => p.2), st)

/-- The dynamically-typed argument of the phone-number assertion: the TS
signature says `string` but callers may pass anything, which is why the
assertion exists. -/
inductive PhoneKey where
  | str (s : String)
  | nonString
deriving Repr, DecidableEq

/-- `assertValidPhoneNumber` (user.service.ts): throws on a non-string,
on a string that trims to empty, and on a trimmed length below 7;
otherwise the original (untrimmed) string is used as the map key. -/
def assertValidPhoneNumber : PhoneKey → Except String String
  | .nonString => .error "Invalid phone number: must be a non-empty string"
  | .str s =>
    if (jsTrim s).length = 0 then
      .error "Invalid phone number: must be a non-empty string"
    else if (jsTrim s).length < 7 then
      .error ("Invalid phone number format: \"" ++ s ++ "\"")
    else .ok s

/-- Does the key pass `assertValidPhoneNumber`? -/
def validPhoneKey : PhoneKey → Bool
  | .nonString => false
  | .str s => decide (7 ≤ (jsTrim s).length)

/-- `getSession` including the leading assertion. -/
def getSession (st : SessionStore) (now : Nat) (db : DbFetch)
    (k : PhoneKey) : Except String GetResult :=
  (assertValidPhoneNumber k).map (getSessionStr st now db)

/-- `createSession` including the leading assertion. -/
def createSession (st : SessionStore) (now : Nat) (k : PhoneKey) :
    Except String (UserSession × SessionStore) :=
  (assertValidPhoneNumber k).map (createSessionStr st now)

/-- `updateSession` including the leading assertion. -/
def updateSession (st : SessionStore) (now : Nat) (db : DbFetch)
    (k : PhoneKey) (u : SessionUpdate) :
    Except String (Option UserSession × SessionStore) :=
  (assertValidPhoneNumber k).map (fun s => updateSessionStr st now db s u)

/-- `deleteSession` including the leading assertion. -/
def deleteSession (st : SessionStore) (k : PhoneKey) :
    Except String (Bool × SessionStore) :=
  (assertValidPhoneNumber k).map (deleteSessionStr st)

/-! Shop registry collaborator (shop.service.ts). -/

/-- `operating_hours` element of the shop settings. -/
structure OperatingHours where
  openTime : String
  closeTime : String
  days : List String
deriving Repr, DecidableEq

/-- `settings` column built by `createShop`. -/
structure ShopSettings where
  delivery_available : Bool
  pickup_available : Bool
  operating_hours : OperatingHours
  contact_whatsapp : String
  contact_address : Option String
deriving Repr, DecidableEq

/-- A persisted `shops` row.  `community` and `category` are `Option`
because the bot can reach the insert with those fields null/undefined. -/
structure Shop where
  id : String
  name : String
  description : String
  owner_phone : String
  community : Option String
  category : Option String
  status : String
  created_at : String
  updated_at : String
  settings : ShopSettings
deriving Repr, DecidableEq

/-- `CreateShopData` as actually produced by the bot: the TS type
declares `name`/`description` as `string`, but `createShopFinal` copies
the draft fields, which can still be undefined — hence `Option`. -/
structure CreateShopData where
  name : Option String
  description : Option String
  owner_phone : String
  community : Option String
  category : Option String
  delivery_available : Option Bool := none
  pickup_available : Option Bool := none
  operating_hours : Option OperatingHours := none
  address : Option String := none
deriving Repr, DecidableEq

/-- Database-generated columns of an inserted shop row, as returned by
`.insert(...).select().single()`. -/
structure ShopMeta where
  id : String
  created_at : String := ""
  updated_at : String := ""
deriving Repr, DecidableEq

/-- The external collaborators of the bot, as oracles.  Errors carried
in `Except` are the messages of the `ShopServiceError`s those methods
throw (`getShopByOwner` and `isShopNameTaken` catch every lower-level
failure and re-throw a `ShopServiceError`). -/
structure BotEnv where
  /-- `userService.getUserByPhone` used by the session-restore path. -/
  db : DbFetch := some none
  /-- `shopService.getShopByOwner`. -/
  shopByOwner : String → Except String (Option Shop) := fun _ => .ok none
  /-- the `shops` existence query of `isShopNameTaken`, keyed by the
  trimmed name and the community. -/
  nameTakenQ : String → Option String → Except String Bool := fun _ _ => .ok false
  /-- outcome of the `shops` insert: `none` is a storage error. -/
  insertShop : Option ShopMeta := none
  /-- outcome of `updateUserShopOwnerStatus`. -/
  userStatusOk : Bool := true
  /-- the `users` fetch in `handleCommunitySelection`: `none` is a thrown
  fetch error, `some r` a successful fetch of row `r`. -/
  userFetch : Option (Option DbUser) := some none

/-- `ShopService.isShopNameTaken`: trims the name and queries; an
undefined name raises a TypeError at `name.trim()` which the method
catches and wraps as its own `ShopServiceError`. -/
def ShopService.isShopNameTaken (env : BotEnv) (name : Option String)
    (community : Option String) : Except String Bool :=
  match name with
  | none => .error "Failed to check shop name availability"
  | some n => env.nameTakenQ (jsTrim n) community

/-- `ShopService.createShop`: one-shop-per-owner check, name-collision
check, then insert of the trimmed fields and an owner-status update.
An undefined description raises a TypeError while building the row,
which the outer catch wraps as a generic `ShopServiceError` (the
`none, _` fallback; an undefined name already failed inside
`isShopNameTaken`). -/
def ShopService.createShop (env : BotEnv) (d : CreateShopData) :
    Except String Shop :=
  match env.shopByOwner d.owner_phone with
  | .error e => .error e
  | .ok (some _) =>
    .error "User already has a shop. Only one shop per user is allowed."
  | .ok none =>
    match ShopService.isShopNameTaken env d.name d.community with
    | .error e => .error e
    | .ok true =>
      .error "Shop name is already taken in this community. Please choose a different name."
    | .ok false =>
      match d.name, d.description with
      | some nm, some ds =>
        let settings : ShopSettings :=
          { delivery_available := d.delivery_available.getD false
            pickup_available := d.pickup_available.getD true
            operating_hours := d.operating_hours.getD
              { openTime := "08:00", closeTime := "18:00"
                days := ["monday", "tuesday", "wednesday", "thursday",
                         "friday", "saturday"] }
            contact_whatsapp := d.owner_phone
            contact_address := d.address }
        match env.insertShop with
        | none => .error "Failed to create shop"
        | some meta =>
          if env.userStatusOk then
            .ok { id := meta.id
                  name := jsTrim nm
                  description := jsTrim ds
                  owner_phone := d.owner_phone
                  community := d.community
                  category := d.category
                  status := "active"
                  created_at := meta.created_at
                  updated_at := meta.updated_at
                  settings := settings }
          else .error "Failed to update user status"
      | _, _ => .error "Failed to create shop"

/-- `getShopCategories` (shop.service.ts). -/
def shopCategories : List String :=
  ["General Store", "Food & Beverages", "Clothing & Fashion",
   "Electronics", "Health & Beauty", "Home & Garden", "Arts & Crafts",
   "Services", "Agriculture", "Other"]

/-! JS `parseInt`, used by the category-selection handler. -/

/-- Value of a hexadecimal digit character. -/
def hexDigitVal (c : Char) : Option Nat :=
  if c.isDigit then some (c.toNat - 48)
  else if 97 ≤ c.toNat ∧ c.toNat ≤ 102 then some (c.toNat - 87)
  else if 65 ≤ c.toNat ∧ c.toNat ≤ 70 then some (c.toNat - 55)
  else none

/-- Value of a decimal digit character. -/
def decDigitVal (c : Char) : Option Nat :=
  if c.isDigit then some (c.toNat - 48) else none

/-- Accumulate the longest valid digit prefix; `none` when it is empty
(JS `NaN`). -/
def parseDigits (base : Nat) (val : Char → Option Nat) (cs : List Char) :
    Option Nat :=
  let pre := cs.takeWhile (fun c => (val c).isSome)
  if pre.isEmpty then none
  else some (pre.foldl (fun a c => a * base + (val c).getD 0) 0)

/-- Unsigned part of `parseInt`, with the `0x`/`0X` hex prefix. -/
def parseIntUnsigned : List Char → Option Nat
  | '0' :: c :: rest =>
    if c = 'x' ∨ c = 'X' then parseDigits 16 hexDigitVal rest
    else parseDigits 10 decDigitVal ('0' :: c :: rest)
  | cs => parseDigits 10 decDigitVal cs

/-- JS `parseInt(s)`: skip leading whitespace, optional sign, longest
numeric prefix; `none` models `NaN`. -/
def parseIntJs (s : String) : Option Int :=
  match (jsTrim s).toList with
  | '-' :: rest => (parseIntUnsigned rest).map (fun n => -(n : Int))
  | '+' :: rest => (parseIntUnsigned rest).map (fun n => (n : Int))
  | cs => (parseIntUnsigned cs).map (fun n => (n : Int))

/-! Outbound message texts (bot.service.ts and the formatting helpers of
whatsapp.service.ts). -/

/-- Help-line suffix appended by `sendErrorMessage` when `includeHelp`. -/
def errorHelpSuffix : String :=
  "\n\nType " ++ sq ++ "0" ++ sq ++ " for main menu or " ++ sq ++ "help"
    ++ sq ++ " for assistance."

/-- `sendErrorMessage` body. -/
def errorMsgText (t : String) (includeHelp : Bool) : String :=
  "❌ " ++ t ++ (if includeHelp then errorHelpSuffix else "")

/-- `sendSuccessMessage` body. -/
def successBody (t : String) (nextStep : Option String) : String :=
  "✅ " ++ t ++ (match nextStep with | some n => "\n\n" ++ n | none => "")

/-- `sendProcessingMessage` body for `createShopFinal`. -/
def processingShopMsg : String := "⏳ Please wait, creating your shop..."

/-- `showMainMenu` text. -/
def mainMenuText : String :=
  "🏠 *Community Marketplace*\n\nChoose your role:\n1️⃣ 🏪 Seller\n2️⃣ 🛒 Buyer\n\nReply with the number of your choice.\nType \"help\" for assistance."

/-- `showSellerMenu` text for a community display name. -/
def sellerMenuText (community : String) : String :=
  "🏪 Welcome, " ++ community ++ " Seller!\n\nChoose an option:\n1️⃣ 🏪 Create Shop\n2️⃣ ⚙️ Manage Shop\n3️⃣ 💳 Setup Payments\n4️⃣ 🔗 EOS Account\n0️⃣ 🏠 Main Menu\n\nReply with the number of your choice."

/-- `showBuyerMenu` text for a community display name. -/
def buyerMenuText (community : String) : String :=
  "🛒 Welcome, " ++ community ++ " Buyer!\n\nWhat would you like to do?\n1️⃣ 🏪 Browse Shops\n2️⃣ 📦 View Products  \n3️⃣ 🛒 My Cart\n4️⃣ 📋 My Orders\n0️⃣ 🏠 Main Menu\n\nReply with the number of your choice."

/-- The seller menu rendered from a `userData` record
(`userData?.communityDisplayName || 'your community'`). -/
def sellerMenuFor (d : UserData) : String :=
  sellerMenuText (jsOrS d.communityDisplayName "your community")

/-- The buyer menu rendered from a `userData` record. -/
def buyerMenuFor (d : UserData) : String :=
  buyerMenuText (jsOrS d.communityDisplayName "your community")

/-- `initiateCommunitySelection` welcome text. -/
def communityWelcomeMsg : String :=
  "🌍 Welcome to our Community Marketplace!\n\nPlease select your community:\n1️⃣ 🏘️ BAMEKA\n2️⃣ 🏘️ BATOUFAM  \n3️⃣ 🏘️ FONDJOMEKWET\n0️⃣ 🏠 Main Menu\n\nReply with the number of your choice."

/-- Invalid main-menu option reply. -/
def invalidMainMenuMsg : String :=
  "❌ Invalid option. Please choose:\n1️⃣ for Seller\n2️⃣ for Buyer\n0️⃣ for Menu"

/-- Invalid community selection reply. -/
def invalidCommunityMsg : String :=
  "❌ Invalid selection. Please choose:\n1️⃣ BAMEKA\n2️⃣ BATOUFAM\n3️⃣ FONDJOMEKWET\n0️⃣ Main Menu"

/-- First-time voucher allocation message. -/
def giftMsg (balance : Nat) (voucher : String) : String :=
  "🎁 You have " ++ toString balance ++ " " ++ voucher ++ " to start shopping!"

/-- Failure reply of `handleCommunitySelection`. -/
def couldNotSaveCommunityMsg : String :=
  "❌ Could not save your community selection. Try again."

/-- Already-have-a-shop reply of `initiateShopCreation`. -/
def existingShopMsg (name : String) : String :=
  "🏪 You already have a shop: *" ++ name ++ "*\n\nChoose option 2 from the menu to manage your existing shop."

/-- Step-1 prompt of the shop-creation wizard. -/
def namePromptMsg : String :=
  "🏪 *Create Your Shop*\n\nLet" ++ sq ++ "s set up your shop! I" ++ sq
    ++ "ll guide you through the process.\n\n*Step 1 of 4: Shop Name*\n\nPlease enter your shop name (2-50 characters):\n\nExample: \"Maria"
    ++ sq ++ "s Fresh Produce\" or \"Tech Repair Hub\"\n\nType \"cancel\" to return to the menu."

/-- Shop-name validation replies. -/
def tooShortNameMsg : String :=
  "❌ Shop name too short. Please enter at least 2 characters."

/-- Reply for a name longer than 50 characters. -/
def tooLongNameMsg : String :=
  "❌ Shop name too long. Please keep it under 50 characters."

/-- Reply for a taken name. -/
def nameTakenMsg (name display : String) : String :=
  "❌ Shop name \"" ++ name ++ "\" is already taken in " ++ display
    ++ ". Please choose a different name."

/-- Step-2 prompt after a name is saved. -/
def nameSavedMsg (name : String) : String :=
  "✅ Great! Shop name: *" ++ name ++ "*\n\n*Step 2 of 4: Shop Description*\n\nPlease describe your shop and what you sell (10-200 characters):\n\nExample: \"Fresh vegetables, fruits, and local produce. Open daily 8AM-6PM with home delivery available.\"\n\nType \"back\" to change the shop name."

/-- Back-to-name reply. -/
def backToNameMsg : String :=
  "⬅️ Back to shop name. Please enter your shop name:"

/-- Description validation replies. -/
def descTooShortMsg : String :=
  "❌ Description too short. Please enter at least 10 characters."

/-- Reply for a description longer than 200 characters. -/
def descTooLongMsg : String :=
  "❌ Description too long. Please keep it under 200 characters."

/-- The numbered category list (`${index + 1}️⃣ ${cat}`). -/
def categoryListText : String :=
  String.intercalate "\n"
    (shopCategories.enum.map
      (fun p => toString (p.1 + 1) ++ String.mk [Char.ofNat 0xFE0F, Char.ofNat 0x20E3] ++ " " ++ p.2))

/-- Step-3 prompt after a description is saved. -/
def descSavedMsg : String :=
  "✅ Description saved!\n\n*Step 3 of 4: Shop Category*\n\nPlease select your shop category:\n\n"
    ++ categoryListText ++ "\n\nType \"back\" to change description."

/-- Back-to-description reply. -/
def backToDescMsg : String :=
  "⬅️ Back to description. Please enter your shop description:"

/-- Invalid category selection reply. -/
def invalidCategoryMsg : String :=
  "❌ Invalid selection. Please choose a number 1-"
    ++ toString shopCategories.length ++ ":\n\n" ++ categoryListText

/-- Step-4 confirmation text. -/
def confirmationMsg (name description category display : String) : String :=
  "*Step 4 of 4: Confirmation*\n\nPlease review your shop details:\n\n🏪 *Shop Name:* "
    ++ name ++ "\n📝 *Description:* " ++ description ++ "\n🏷️ *Category:* "
    ++ category ++ "\n🏘️ *Community:* " ++ display
    ++ "\n\n1️⃣ ✅ Create Shop\n2️⃣ ⬅️ Go Back\n3️⃣ ❌ Cancel\n\nType your choice:"

/-- Back-to-category reply. -/
def backToCategoryMsg : String :=
  "⬅️ Back to category selection. Please choose your shop category:"

/-- Cancellation notice. -/
def cancelledMsg : String := "❌ Shop creation cancelled."

/-- Invalid confirmation choice reply. -/
def invalidConfirmMsg : String :=
  "❌ Invalid choice. Please select:\n1️⃣ Create Shop\n2️⃣ Go Back\n3️⃣ Cancel"

/-- Success message on shop creation. -/
def successMsgText (name : String) : String :=
  successBody ("🎉 Congratulations! Your shop \"" ++ name ++ "\" has been created successfully!")
    (some "You can now manage your shop, add products, and start selling to your community.")

/-- Fallback for unrecognized flows in `handleTextMessage`. -/
def didNotUnderstandMsg (m : String) : String :=
  "❓ Sorry, I didn" ++ sq ++ "t understand \"" ++ m
    ++ "\". Type \"0\" to return to main menu."

/-- No-shop reply of `handleManageShop`. -/
def noShopYetMsg : String :=
  "❌ You don" ++ sq
    ++ "t have a shop yet. Please create one first by selecting option 1."

/-- Shop-management overview of `handleManageShop`. -/
def manageShopMsg (s : Shop) : String :=
  "🏪 *" ++ s.name ++ "*\n📝 " ++ s.description ++ "\n🏷️ Category: "
    ++ tmpl s.category ++ "\n📊 Status: " ++ s.status
    ++ "\n\n*Shop Management:*\n1️⃣ 📦 Add Products\n2️⃣ 📋 View Products  \n3️⃣ 📊 View Orders\n4️⃣ ⚙️ Shop Settings\n0️⃣ 🏠 Back to Menu\n\nShop management features coming soon!"

/-! The BotService flow handlers. -/

/-- One entry of `BotService.COMMUNITIES`. -/
structure Community where
  name : String
  voucher : String
  displayName : String
deriving Repr, DecidableEq

/-- Accumulated effect of a handler run: the session store it leaves
behind, the bodies of the messages sent so far (in order), and a
pending exception that has not yet been caught. -/
structure BotOut where
  store : SessionStore
  sent : List String
  err : Option String := none
deriving Repr, DecidableEq

/-- Append one outbound send. -/
def send (o : BotOut) (m : String) : BotOut :=
  { o with sent := o.sent ++ [m] }

/-- A handler's `userSessionService.updateSession` call (result unused). -/
def botUpdate (env : BotEnv) (now : Nat) (phone : String) (o : BotOut)
    (u : SessionUpdate) : BotOut :=
  { o with store := (updateSessionStr o.store now env.db phone u).2 }

/-- `BotService.COMMUNITIES`. -/
def COMMUNITIES (n : String) : Option Community :=
  if n = "BAMEKA" then some ⟨"BAMEKA", "MUNKAP", "🏘️ BAMEKA"⟩
  else if n = "BATOUFAM" then some ⟨"BATOUFAM", "MBIP TSWEFAP", "🏘️ BATOUFAM"⟩
  else if n = "FONDJOMEKWET" then some ⟨"FONDJOMEKWET", "MBAM", "🏘️ FONDJOMEKWET"⟩
  else none

/-- `showMainMenu`: move the session to `main_menu`, then display. -/
def showMainMenu (env : BotEnv) (now : Nat) (phone : String) (o : BotOut) :
    BotOut :=
  let o := botUpdate env now phone o { currentFlow := some (some "main_menu") }
  send o mainMenuText

/-- `showSellerMenu`: display only, no session mutation. -/
def showSellerMenu (session : UserSession) (o : BotOut) : BotOut :=
  send o (sellerMenuFor session.userData)

/-- `showBuyerMenu`: display only, no session mutation. -/
def showBuyerMenu (session : UserSession) (o : BotOut) : BotOut :=
  send o (buyerMenuFor session.userData)

/-- `createShopFinal`: commit the draft through `ShopService.createShop`;
on success clear the draft and move to `seller_menu`; a
`ShopServiceError` is surfaced verbatim through `sendErrorMessage`
followed by the seller menu.  A missing draft object raises a TypeError,
caught as a non-`ShopServiceError` (generic message).  The delayed
`setTimeout` seller menu on success is modelled as a final send. -/
def createShopFinal (env : BotEnv) (now : Nat) (phone : String)
    (session : UserSession) (o : BotOut) : BotOut :=
  let o := send o processingShopMsg
  match session.userData.shopCreation with
  | none =>
    showSellerMenu session
      (send o (errorMsgText "Failed to create shop. Please try again." true))
  | some draft =>
    let d : CreateShopData :=
      { name := draft.name, description := draft.description
        category := draft.category, owner_phone := phone
        community := session.community }
    match ShopService.createShop env d with
    | .ok newShop =>
      let data :=
        { session.userData with
          shopCreation := none
          shopId := some newShop.id }
      let o := botUpdate env now phone o
        { currentFlow := some (some "seller_menu"), userData := some data }
      let o := send o (successMsgText newShop.name)
      showSellerMenu session o
    | .error e =>
      showSellerMenu session (send o (errorMsgText e true))

/-- `handleShopConfirmation`.  The source's `case '2'` ends without a
`break`/`return`, so after moving back to category selection it falls
through into `case '3'` (cancellation message plus seller menu); and
neither `'2'` nor `'3'` clears the draft or changes the flow to
`seller_menu` (`showSellerMenu` only sends text). -/
def handleShopConfirmation (env : BotEnv) (now : Nat) (phone : String)
    (choice : String) (session : UserSession) (o : BotOut) : BotOut :=
  if choice = "1" then createShopFinal env now phone session o
  else if choice = "2" then
    let o := botUpdate env now phone o
      { currentFlow := some (some "shop_category_select") }
    let o := send o backToCategoryMsg
    showSellerMenu session (send o cancelledMsg)
  else if choice = "3" then
    showSellerMenu session (send o cancelledMsg)
  else send o invalidConfirmMsg

/-- `handleShopCategorySelect`.  Neither the `back` branch nor the
invalid-selection branch returns early in the source, so every call
falls through to storing the (possibly null) selection and moving to
`shop_confirmation`. -/
def handleShopCategorySelect (env : BotEnv) (now : Nat) (phone : String)
    (input : String) (session : UserSession) (o : BotOut) : BotOut :=
  let o :=
    if input = "back" then
      send (botUpdate env now phone o
        { currentFlow := some (some "shop_description_input") }) backToDescMsg
    else o
  let selectedCategory : Option String :=
    match parseIntJs input with
    | none => none
    | some v =>
      if 0 ≤ v - 1 ∧ v - 1 < (shopCategories.length : Int) then
        shopCategories[(v - 1).toNat]?
      else none
  let o := if selectedCategory.isNone then send o invalidCategoryMsg else o
  let draft0 := session.userData.shopCreation.getD {}
  let updatedShopData := { draft0 with category := selectedCategory }
  let o := botUpdate env now phone o
    { currentFlow := some (some "shop_confirmation")
      userData := some { session.userData with shopCreation := some updatedShopData } }
  send o (confirmationMsg (tmpl updatedShopData.name)
    (tmpl updatedShopData.description) (tmplNull selectedCategory)
    (tmpl session.userData.communityDisplayName))

/-- `handleShopDescriptionInput`.  As in the source, neither the `back`
branch nor the length validations return early: every input ends up
stored as the trimmed description with the flow advanced to
`shop_category_select`. -/
def handleShopDescriptionInput (env : BotEnv) (now : Nat) (phone : String)
    (description : String) (session : UserSession) (o : BotOut) : BotOut :=
  let o :=
    if description = "back" then
      send (botUpdate env now phone o
        { currentFlow := some (some "shop_name_input") }) backToNameMsg
    else o
  let o := if (jsTrim description).length < 10 then send o descTooShortMsg else o
  let o := if (jsTrim description).length > 200 then send o descTooLongMsg else o
  let draft0 := session.userData.shopCreation.getD {}
  let draft1 := { draft0 with description := some (jsTrim description) }
  let data :=
    { session.userData with
      shopCreation := some draft1 }
  let o := botUpdate env now phone o
    { currentFlow := some (some "shop_category_select"), userData := some data }
  send o descSavedMsg

/-- `handleShopNameInput`.  The length and taken-name validations send a
reply but do not return, so execution continues into the save: the
trimmed name is stored and the flow advances to
`shop_description_input` regardless.  A thrown `isShopNameTaken` error
propagates (recorded in `err`). -/
def handleShopNameInput (env : BotEnv) (now : Nat) (phone : String)
    (name : String) (session : UserSession) (o : BotOut) : BotOut :=
  let o := if (jsTrim name).length < 2 then send o tooShortNameMsg else o
  let o := if (jsTrim name).length > 50 then send o tooLongNameMsg else o
  match ShopService.isShopNameTaken env (some (jsTrim name)) session.community with
  | .error e => { o with err := some e }
  | .ok taken =>
    let o :=
      if taken then
        send o (nameTakenMsg (jsTrim name) (tmpl session.userData.communityDisplayName))
      else o
    let draft0 := session.userData.shopCreation.getD {}
    let draft1 := { draft0 with name := some (jsTrim name) }
    let data :=
      { session.userData with
        shopCreation := some draft1 }
    let o := botUpdate env now phone o
      { currentFlow := some (some "shop_description_input"), userData := some data }
    send o (nameSavedMsg (jsTrim name))

/-- `handleShopCreationFlow`: the `cancel` shortcut, dispatch on the
current flow, and the catch that converts an escaped handler error into
a generic apology plus the seller menu. -/
def handleShopCreationFlow (env : BotEnv) (now : Nat) (phone : String)
    (message : String) (session : UserSession) (o : BotOut) : BotOut :=
  if message = "cancel" then
    showSellerMenu session (send o cancelledMsg)
  else
    let r :=
      if session.currentFlow = some "shop_name_input" then
        handleShopNameInput env now phone message session o
      else if session.currentFlow = some "shop_description_input" then
        handleShopDescriptionInput env now phone message session o
      else if session.currentFlow = some "shop_category_select" then
        handleShopCategorySelect env now phone message session o
      else if session.currentFlow = some "shop_confirmation" then
        handleShopConfirmation env now phone message session o
      else o
    match r.err with
    | some _ =>
      showSellerMenu session
        (send { r with err := none }
          (errorMsgText "Something went wrong. Please try again." true))
    | none => r

/-- `initiateShopCreation`: refuse when a shop already exists, otherwise
initialise an empty draft and prompt for the name. -/
def initiateShopCreation (env : BotEnv) (now : Nat) (phone : String)
    (session : UserSession) (o : BotOut) : BotOut :=
  match env.shopByOwner phone with
  | .error _ =>
    send o (errorMsgText "Could not start shop creation. Please try again." true)
  | .ok (some shop) =>
    showSellerMenu session (send o (existingShopMsg shop.name))
  | .ok none =>
    let o := botUpdate env now phone o
      { currentFlow := some (some "shop_name_input")
        userData := some { session.userData with shopCreation := some {} } }
    send o namePromptMsg

/-- `handleManageShop`. -/
def handleManageShop (env : BotEnv) (now : Nat) (phone : String)
    (session : UserSession) (o : BotOut) : BotOut :=
  match env.shopByOwner phone with
  | .error _ => send o (errorMsgText "Could not load shop information." true)
  | .ok none => showSellerMenu session (send o noShopYetMsg)
  | .ok (some shop) => send o (manageShopMsg shop)

/-- `handleSellerMenuInput`. -/
def handleSellerMenuInput (env : BotEnv) (now : Nat) (phone : String)
    (message : String) (session : UserSession) (o : BotOut) : BotOut :=
  if message = "1" then initiateShopCreation env now phone session o
  else if message = "2" then handleManageShop env now phone session o
  else if message = "3" then
    showSellerMenu session (send o "💳 Setup Payments feature coming soon!")
  else if message = "4" then
    showSellerMenu session (send o "🔗 EOS Account setup feature coming soon!")
  else if message = "0" then showMainMenu env now phone o
  else
    showSellerMenu session
      (send o (errorMsgText "Invalid option. Please choose 1-4 or 0 for main menu." false))

/-- `handleBuyerMenuInput`. -/
def handleBuyerMenuInput (env : BotEnv) (now : Nat) (phone : String)
    (message : String) (session : UserSession) (o : BotOut) : BotOut :=
  if message = "1" then
    showBuyerMenu session (send o "🏪 Browse Shops feature coming soon!")
  else if message = "2" then
    showBuyerMenu session (send o "📦 View Products feature coming soon!")
  else if message = "3" then
    showBuyerMenu session (send o "🛒 My Cart feature coming soon!")
  else if message = "4" then
    showBuyerMenu session (send o "📋 My Orders feature coming soon!")
  else if message = "0" then showMainMenu env now phone o
  else
    showBuyerMenu session
      (send o "❌ Invalid option. Please choose:\n1️⃣ Browse Shops\n2️⃣ View Products\n3️⃣ My Cart\n4️⃣ My Orders\n0️⃣ Main Menu")

/-- `initiateCommunitySelection`: mark the pending role, move to
`community_selection`, display the community menu. -/
def initiateCommunitySelection (env : BotEnv) (now : Nat) (phone : String)
    (session : UserSession) (userType : String) (o : BotOut) : BotOut :=
  let o := botUpdate env now phone o
    { currentFlow := some (some "community_selection")
      userData := some { session.userData with pendingUserType := some userType } }
  send o communityWelcomeMsg

/-- `handleCommunitySelection`: persist community, voucher, role and the
next flow; then the (caught) database round trip that allocates the
default voucher balance and picks the menu to display.  An unknown
community name raises a TypeError before the catch (recorded in
`err`). -/
def handleCommunitySelection (env : BotEnv) (now : Nat) (phone : String)
    (session : UserSession) (communityName : String) (o : BotOut) : BotOut :=
  match COMMUNITIES communityName with
  | none => { o with err := some "TypeError" }
  | some community =>
    let pending := session.userData.pendingUserType
    let userType :=
      if pending = some "seller" ∨ pending = some "buyer" then pending else none
    let newData :=
      { session.userData with
        community := some communityName
        communityDisplayName := some community.displayName }
    let flow := if userType = some "seller" then "seller_menu" else "buyer_menu"
    let o := botUpdate env now phone o
      { community := some (some communityName)
        communityVoucher := some (some community.voucher)
        userType := some userType
        currentFlow := some (some flow)
        userData := some newData }
    match env.userFetch with
    | none => send o couldNotSaveCommunityMsg
    | some existing =>
      let voucherBalance :=
        match existing with
        | some u => if u.voucher_balance = 0 then 100 else u.voucher_balance
        | none => 100
      let o :=
        match existing with
        | none => send o (giftMsg voucherBalance community.voucher)
        | some _ => o
      if userType = some "seller" then send o (sellerMenuFor newData)
      else send o (buyerMenuFor newData)

/-- The `communityMap` lookup of `handleCommunitySelectionInput`. -/
def communityMap (message : String) : Option String :=
  if message = "1" ∨ message = "bameka" then some "BAMEKA"
  else if message = "2" ∨ message = "batoufam" then some "BATOUFAM"
  else if message = "3" ∨ message = "fondjomekwet" ∨ message = "fondjo" then
    some "FONDJOMEKWET"
  else none

/-- `handleCommunitySelectionInput`. -/
def handleCommunitySelectionInput (env : BotEnv) (now : Nat) (phone : String)
    (message : String) (session : UserSession) (o : BotOut) : BotOut :=
  if message = "0" then showMainMenu env now phone o
  else
    match communityMap message with
    | some c => handleCommunitySelection env now phone session c o
    | none => send o invalidCommunityMsg

/-- `handleMainMenuInput`. -/
def handleMainMenuInput (env : BotEnv) (now : Nat) (phone : String)
    (message : String) (session : UserSession) (o : BotOut) : BotOut :=
  if message = "1" then
    initiateCommunitySelection env now phone session "seller" o
  else if message = "2" then
    initiateCommunitySelection env now phone session "buyer" o
  else send o invalidMainMenuMsg

/-- The global commands checked first by `handleTextMessage`. -/
def globalCommands : List String := ["help", "menu", "start", "0"]

/-- `handleTextMessage`: global commands first, then dispatch on the
session's `currentFlow`. -/
def handleTextMessage (env : BotEnv) (now : Nat) (phone : String)
    (message : String) (session : UserSession) (o : BotOut) : BotOut :=
  if message ∈ globalCommands then showMainMenu env now phone o
  else if session.currentFlow = some "main_menu" then
    handleMainMenuInput env now phone message session o
  else if session.currentFlow = some "community_selection" then
    handleCommunitySelectionInput env now phone message session o
  else if session.currentFlow = some "seller_menu" then
    handleSellerMenuInput env now phone message session o
  else if session.currentFlow = some "buyer_menu" then
    handleBuyerMenuInput env now phone message session o
  else if session.currentFlow = some "shop_name_input"
      ∨ session.currentFlow = some "shop_description_input"
      ∨ session.currentFlow = some "shop_category_select"
      ∨ session.currentFlow = some "shop_confirmation" then
    handleShopCreationFlow env now phone message session o
  else send o (didNotUnderstandMsg message)

/-! Concrete fixtures used by the claim theorems and witnesses. -/

/-- A valid phone key (7 characters after trimming). -/
def phoneA : String := "p1234567"

/-- A fully populated draft as accumulated by the wizard. -/
def draftFull : ShopDraft :=
  { name := some "Blue Shop", description := some "Fresh goods sold daily"
    category := some "Electronics" }

/-- A session sitting at the shop-name step. -/
def sessionNameStep : UserSession :=
  { phoneNumber := phoneA, createdAt := 0, lastActivity := 100
    currentFlow := some "shop_name_input", community := some "BAMEKA"
    userType := some "seller"
    userData := { community := some "BAMEKA"
                  communityDisplayName := some "BAMEKA town"
                  shopCreation := some {} } }

/-- Store holding `sessionNameStep`. -/
def storeNameStep : SessionStore := { sessions := [(phoneA, sessionNameStep)] }

/-- A session sitting at the confirmation step with a full draft. -/
def sessionConfirmStep : UserSession :=
  { phoneNumber := phoneA, createdAt := 0, lastActivity := 100
    currentFlow := some "shop_confirmation", community := some "BAMEKA"
    userType := some "seller"
    userData := { community := some "BAMEKA"
                  communityDisplayName := some "BAMEKA town"
                  shopCreation := some draftFull } }

/-- Store holding `sessionConfirmStep`. -/
def storeConfirmStep : SessionStore :=
  { sessions := [(phoneA, sessionConfirmStep)] }

/-- Collaborators that answer every query benignly but whose shop insert
fails (the defaults). -/
def envDefault : BotEnv := {}

/-- Collaborators for a successful shop creation. -/
def envInsertOk : BotEnv := { insertShop := some { id := "shop-1" } }

/-- Collaborators reporting a shop-name collision. -/
def envNameTaken : BotEnv := { nameTakenQ := fun _ _ => Except.ok true }

/-- A store whose single session is long expired (timeout 10, last
activity at 0, observed at time 100). -/
def expiredStore : SessionStore :=
  { sessions := [(phoneA, { phoneNumber := phoneA, createdAt := 0, lastActivity := 0 })]
    sessionTimeout := 10 }

/-- A partial that tries to overwrite the protected identity fields. -/
def probeUpdate : SessionUpdate :=
  { phoneNumber := some "HACK", createdAt := some 999
    currentFlow := some (some "community_selection") }

/-- A session sitting at the category step with name and description
already collected. -/
def sessionCategoryStep : UserSession :=
  { phoneNumber := phoneA, createdAt := 0, lastActivity := 100
    currentFlow := some "shop_category_select", community := some "BAMEKA"
    userType := some "seller"
    userData := { community := some "BAMEKA"
                  communityDisplayName := some "BAMEKA town"
                  shopCreation := some { name := some "Blue Shop"
                                         description := some "Fresh goods sold daily" } } }

/-- Store holding `sessionCategoryStep`. -/
def storeCategoryStep : SessionStore :=
  { sessions := [(phoneA, sessionCategoryStep)] }

/-! Lemmas about the association-list map operations. -/

theorem find?_replaceKey_ne (m : List (String × UserSession)) (k k2 : String)
    (v : UserSession) (h : k2 ≠ k) :
    (m.map (fun p => if p.1 = k then (k, v) else p)).find? (fun p => p.1 = k2)
      = m.find? (fun p => p.1 = k2) := by
  induction m with
  | nil => rfl
  | cons a as ih =>
    by_cases ha : a.1 = k
    · rw [List.map_cons, if_pos ha]
      rw [List.find?_cons_of_neg _ (by simp [h.symm]),
          List.find?_cons_of_neg _ (by simp [ha, h.symm])]
      exact ih
    · rw [List.map_cons, if_neg ha]
      by_cases ha2 : a.1 = k2
      · rw [List.find?_cons_of_pos _ (by simp [ha2]),
            List.find?_cons_of_pos _ (by simp [ha2])]
      · rw [List.find?_cons_of_neg _ (by simp [ha2]),
            List.find?_cons_of_neg _ (by simp [ha2])]
        exact ih

theorem find?_replaceKey_self (m : List (String × UserSession)) (k : String)
    (v : UserSession) (h : (m.find? (fun p => p.1 = k)).isSome) :
    (m.map (fun p => if p.1 = k then (k, v) else p)).find? (fun p => p.1 = k)
      = some (k, v) := by
  induction m with
  | nil => simp at h
  | cons a as ih =>
    by_cases ha : a.1 = k
    · rw [List.map_cons, if_pos ha, List.find?_cons_of_pos _ (by simp)]
    · rw [List.find?_cons_of_neg _ (by simp [ha])] at h
      rw [List.map_cons, if_neg ha, List.find?_cons_of_neg _ (by simp [ha])]
      exact ih h

theorem mapGet_mapSet (m : List (String × UserSession)) (k k2 : String) (v : UserSession) :
    mapGet (mapSet m k v) k2 = if k2 = k then some v else mapGet m k2 := by
  unfold mapGet mapSet
  by_cases hf : (m.find? (fun p => p.1 = k)).isSome
  · rw [if_pos hf]
    by_cases h2 : k2 = k
    · subst h2
      rw [find?_replaceKey_self m k2 v hf, if_pos rfl]
    · rw [find?_replaceKey_ne m k k2 v h2, if_neg h2]
  · rw [if_neg hf]
    rw [List.find?_append]
    by_cases h2 : k2 = k
    · subst h2
      have hnone : m.find? (fun p => p.1 = k2) = none := by
        cases hx : m.find? (fun p => p.1 = k2) with
        | none => rfl
        | some p => rw [hx] at hf; simp at hf
      rw [hnone, if_pos rfl]
      simp [List.find?]
    · rw [if_neg h2]
      cases hx : m.find? (fun p => p.1 = k2) with
      | none =>
        have h2s : ¬ k = k2 := fun h => h2 h.symm
        simp [List.find?, h2s]
      | some p => simp

theorem mapGet_mapDel (m : List (String × UserSession)) (k k2 : String) :
    mapGet (mapDel m k) k2 = if k2 = k then none else mapGet m k2 := by
  unfold mapGet mapDel
  by_cases h2 : k2 = k
  · subst h2
    rw [if_pos rfl]
    induction m with
    | nil => rfl
    | cons a as ih =>
      by_cases ha : a.1 = k2
      · rw [List.filter_cons_of_neg (by simp [ha])]
        exact ih
      · rw [List.filter_cons_of_pos (by simp [ha]),
            List.find?_cons_of_neg _ (by simp [ha])]
        exact ih
  · rw [if_neg h2]
    induction m with
    | nil => rfl
    | cons a as ih =>
      by_cases ha : a.1 = k
      · rw [List.filter_cons_of_neg (by simp [ha])]
        rw [List.find?_cons_of_neg _ (by simp [ha]; exact fun hh => h2 hh.symm)]
        exact ih
      · rw [List.filter_cons_of_pos (by simp [ha])]
        by_cases ha2 : a.1 = k2
        · rw [List.find?_cons_of_pos _ (by simp [ha2]),
              List.find?_cons_of_pos _ (by simp [ha2])]
        · rw [List.find?_cons_of_neg _ (by simp [ha2]),
              List.find?_cons_of_neg _ (by simp [ha2])]
          exact ih


theorem mapGet_cons_eq (a : String × UserSession) (l : List (String × UserSession))
    (k : String) (h : a.1 = k) : mapGet (a :: l) k = some a.2 := by
  unfold mapGet
  rw [List.find?_cons_of_pos _ (by simp [h])]

theorem mapGet_cons_ne (a : String × UserSession) (l : List (String × UserSession))
    (k : String) (h : ¬ a.1 = k) : mapGet (a :: l) k = mapGet l k := by
  unfold mapGet
  rw [List.find?_cons_of_neg _ (by simp [h])]

theorem mapGet_filter_nodup (m : List (String × UserSession)) (f : UserSession → Bool)
    (hnodup : (m.map Prod.fst).Nodup) (k : String) (s : UserSession)
    (h : mapGet m k = some s) :
    mapGet (m.filter (fun p => f p.2)) k = if f s = true then some s else none := by
  induction m with
  | nil => simp [mapGet, List.find?] at h
  | cons a as ih =>
    rw [List.map_cons, List.nodup_cons] at hnodup
    by_cases ha : a.1 = k
    · rw [mapGet_cons_eq a as k ha] at h
      simp only [Option.some.injEq] at h
      subst h
      have hget_as : ∀ x ∈ as, ¬ x.1 = k := by
        intro x hx hxk
        exact hnodup.1 (by rw [ha, ← hxk]; exact List.mem_map_of_mem Prod.fst hx)
      by_cases hf : f a.2 = true
      · rw [List.filter_cons_of_pos (by simpa using hf), mapGet_cons_eq a _ k ha, if_pos hf]
      · rw [List.filter_cons_of_neg (by simpa using hf), if_neg hf]
        unfold mapGet
        have hnone : (as.filter (fun p => f p.2)).find? (fun p => p.1 = k) = none :=
          List.find?_eq_none.mpr (fun x hx => by
            simp only [decide_eq_true_eq]
            exact hget_as x (List.mem_of_mem_filter hx))
        rw [hnone]
    · rw [mapGet_cons_ne a as k ha] at h
      have ihh := ih hnodup.2 h
      by_cases hf : f a.2 = true
      · rw [List.filter_cons_of_pos (by simpa using hf), mapGet_cons_ne a _ k ha]
        exact ihh
      · rw [List.filter_cons_of_neg (by simpa using hf)]
        exact ihh

theorem getSessionStr_frame (st : SessionStore) (now : Nat) (db : DbFetch)
    (k k2 : String) (h2 : k2 ≠ k) :
    mapGet (getSessionStr st now db k).store.sessions k2 = mapGet st.sessions k2 := by
  unfold getSessionStr
  cases hm : mapGet st.sessions k with
  | some s =>
    by_cases he : isExpired st.sessionTimeout now s = true
    · simp only [he, if_true]
      rw [mapGet_mapDel, if_neg h2]
    · simp only [he, Bool.false_eq_true, if_false]
      rw [mapGet_mapSet, if_neg h2]
  | none =>
    cases db with
    | none => rfl
    | some o =>
      cases o with
      | none => rfl
      | some uu =>
        simp only
        rw [mapGet_mapSet, if_neg h2]

theorem getSessionStr_live (st : SessionStore) (now : Nat) (db : DbFetch)
    (k : String) (s0 : UserSession) (hs : mapGet st.sessions k = some s0)
    (hfresh : isExpired st.sessionTimeout now s0 = false) :
    getSessionStr st now db k =
      { result := some { s0 with lastActivity := now }
        store := { st with
          sessions := mapSet st.sessions k { s0 with lastActivity := now } } } := by
  unfold getSessionStr
  rw [hs]
  simp [hfresh]

theorem updateSessionStr_live (st : SessionStore) (now : Nat) (db : DbFetch)
    (k : String) (u : SessionUpdate) (s0 : UserSession)
    (hs : mapGet st.sessions k = some s0)
    (hfresh : isExpired st.sessionTimeout now s0 = false) :
    updateSessionStr st now db k u =
      (some (applySafeUpdates { s0 with lastActivity := now } u now),
       { st with
         sessions := mapSet (mapSet st.sessions k { s0 with lastActivity := now })
           k (applySafeUpdates { s0 with lastActivity := now } u now) }) := by
  simp only [updateSessionStr, getSessionStr_live st now db k s0 hs hfresh]

theorem assertValidPhoneNumber_str (s : String) :
    assertValidPhoneNumber (PhoneKey.str s) =
      (if (jsTrim s).length = 0 then
        Except.error "Invalid phone number: must be a non-empty string"
      else if (jsTrim s).length < 7 then
        Except.error ("Invalid phone number format: \"" ++ s ++ "\"")
      else Except.ok s) := rfl

/-- Claim C4: `createSession` fails on an empty/malformed key; otherwise
it inserts a fresh session with `currentFlow = main_menu`, empty
`userData` and current timestamps, overwriting any existing entry for
the key (the store `st` is arbitrary), and an immediate `get` returns
that session with `currentFlow = main_menu` and empty scratch. -/
theorem claimC4_createSession_contract (st : SessionStore) (now : Nat)
    (db : DbFetch) (k : PhoneKey) :
    (validPhoneKey k = false → ∃ e, createSession st now k = Except.error e) ∧
    (∀ s, k = PhoneKey.str s → validPhoneKey k = true →
      ∃ fresh st2, createSession st now k = Except.ok (fresh, st2) ∧
        fresh.phoneNumber = s ∧ fresh.currentFlow = some "main_menu" ∧
        fresh.userData = {} ∧ fresh.userType = none ∧
        fresh.createdAt = now ∧ fresh.lastActivity = now ∧
        mapGet st2.sessions s = some fresh ∧
        (getSessionStr st2 now db s).result = some fresh) := by
  constructor
  · intro hv
    cases k with
    | nonString => exact ⟨_, rfl⟩
    | str s =>
      simp only [validPhoneKey, decide_eq_false_iff_not, not_le] at hv
      unfold createSession
      rw [assertValidPhoneNumber_str]
      by_cases h0 : (jsTrim s).length = 0
      · rw [if_pos h0]; exact ⟨_, rfl⟩
      · rw [if_neg h0, if_pos hv]; exact ⟨_, rfl⟩
  · intro s hk hv
    subst hk
    simp only [validPhoneKey, decide_eq_true_eq] at hv
    have h0 : ¬ (jsTrim s).length = 0 := by omega
    have h7 : ¬ (jsTrim s).length < 7 := by omega
    refine ⟨(createSessionStr st now s).1, (createSessionStr st now s).2, ?_,
      rfl, rfl, rfl, rfl, rfl, rfl, ?_, ?_⟩
    · unfold createSession
      rw [assertValidPhoneNumber_str, if_neg h0, if_neg h7]
      rfl
    · unfold createSessionStr
      simp only
      rw [mapGet_mapSet, if_pos rfl]
    · unfold getSessionStr
      have hexp : isExpired (createSessionStr st now s).2.sessionTimeout now
          (createSessionStr st now s).1 = false := by
        unfold createSessionStr isExpired
        simp
      have hm : mapGet (createSessionStr st now s).2.sessions s =
          some (createSessionStr st now s).1 := by
        unfold createSessionStr
        simp only
        rw [mapGet_mapSet, if_pos rfl]
      rw [hm]
      simp only [hexp]
      rfl

/-- Claim C4 witness: `createSession` followed by `get` at the concrete
key `phoneA` and time 5. -/
theorem claimC4_witness :
    ∃ fresh st2, createSession {} 5 (PhoneKey.str phoneA) = Except.ok (fresh, st2) ∧
      fresh.phoneNumber = phoneA ∧ fresh.currentFlow = some "main_menu" ∧
      fresh.userData = {} ∧ fresh.userType = none ∧
      fresh.createdAt = 5 ∧ fresh.lastActivity = 5 ∧
      mapGet st2.sessions phoneA = some fresh ∧
      (getSessionStr st2 5 (some none) phoneA).result = some fresh :=
  (claimC4_createSession_contract {} 5 (some none) (PhoneKey.str phoneA)).2
    phoneA rfl (by decide)

/-- Claim C6: `getSession` returns the live entry (with `lastActivity`
touched) exactly when present and unexpired; deletes an expired entry
and returns none without consulting the database; on a miss returns
none when the database fetch fails (error degraded, not propagated) or
has no record, and the restored session when it does; and no expired
session survives into `getActiveSessions` output. -/
theorem claimC6_getSession_contract (st : SessionStore) (now : Nat)
    (db : DbFetch) (k : String) :
    (∀ s, mapGet st.sessions k = some s →
      isExpired st.sessionTimeout now s = false →
      (getSessionStr st now db k).result = some { s with lastActivity := now } ∧
      mapGet (getSessionStr st now db k).store.sessions k =
        some { s with lastActivity := now }) ∧
    (∀ s, mapGet st.sessions k = some s →
      isExpired st.sessionTimeout now s = true →
      (getSessionStr st now db k).result = none ∧
      mapGet (getSessionStr st now db k).store.sessions k = none) ∧
    (mapGet st.sessions k = none → db = none →
      (getSessionStr st now db k).result = none ∧
      (getSessionStr st now db k).store = st) ∧
    (mapGet st.sessions k = none → db = some none →
      (getSessionStr st now db k).result = none ∧
      (getSessionStr st now db k).store = st) ∧
    (∀ u, mapGet st.sessions k = none → db = some (some u) →
      (getSessionStr st now db k).result = some (createSessionFromUser now u)) ∧
    (∀ s, s ∈ (getActiveSessions st now).1 →
      isExpired st.sessionTimeout now s = false) := by
  refine ⟨?_, ?_, ?_, ?_, ?_, ?_⟩
  · intro s hs hexp
    unfold getSessionStr
    rw [hs]
    refine ⟨?_, ?_⟩
    · simp [hexp]
    · simp only [hexp, Bool.false_eq_true, if_false]
      rw [mapGet_mapSet, if_pos rfl]
  · intro s hs hexp
    unfold getSessionStr
    rw [hs]
    refine ⟨?_, ?_⟩
    · simp [hexp]
    · simp only [hexp, if_true]
      rw [mapGet_mapDel, if_pos rfl]
  · intro hm hdb
    subst hdb
    unfold getSessionStr
    rw [hm]
    exact ⟨rfl, rfl⟩
  · intro hm hdb
    subst hdb
    unfold getSessionStr
    rw [hm]
    exact ⟨rfl, rfl⟩
  · intro u hm hdb
    subst hdb
    unfold getSessionStr
    rw [hm]
  · intro s hs
    unfold getActiveSessions cleanExpiredSessions at hs
    simp only [List.mem_map] at hs
    obtain ⟨p, hp, rfl⟩ := hs
    rw [List.mem_filter] at hp
    simpa using hp.2

/-- Claim C6 witness: a fresh hit is returned touched, and the expired
entry of `expiredStore` is deleted and not returned. -/
theorem claimC6_witness :
    ((getSessionStr storeNameStep 100 (some none) phoneA).result =
      some { sessionNameStep with lastActivity := 100 } ∧
      mapGet (getSessionStr storeNameStep 100 (some none) phoneA).store.sessions
        phoneA = some { sessionNameStep with lastActivity := 100 }) ∧
    ((getSessionStr expiredStore 100 (some none) phoneA).result = none ∧
      mapGet (getSessionStr expiredStore 100 (some none) phoneA).store.sessions
        phoneA = none) :=
  ⟨(claimC6_getSession_contract storeNameStep 100 (some none) phoneA).1
      sessionNameStep (by decide) (by decide),
   (claimC6_getSession_contract expiredStore 100 (some none) phoneA).2.1
      { phoneNumber := phoneA, createdAt := 0, lastActivity := 0 }
      (by decide) (by decide)⟩

/-- Claim C7: the sweep removes exactly the sessions past the timeout
(stated extensionally for stores without duplicate keys) and returns
the number removed; with at least one expired session the first sweep
returns a positive count, and an immediately repeated sweep returns
zero. -/
theorem claimC7_sweep_contract (st : SessionStore) (now : Nat) :
    ((cleanExpiredSessions st now).1 =
      (st.sessions.filter (fun p => isExpired st.sessionTimeout now p.2)).length) ∧
    ((st.sessions.map Prod.fst).Nodup →
      ∀ k s, mapGet st.sessions k = some s →
        mapGet (cleanExpiredSessions st now).2.sessions k =
          if isExpired st.sessionTimeout now s = true then none else some s) ∧
    ((∃ p ∈ st.sessions, isExpired st.sessionTimeout now p.2 = true) →
      0 < (cleanExpiredSessions st now).1) ∧
    (cleanExpiredSessions (cleanExpiredSessions st now).2 now).1 = 0 := by
  refine ⟨rfl, ?_, ?_, ?_⟩
  · intro hnodup k s hs
    have hh := mapGet_filter_nodup st.sessions
      (fun x => ¬ isExpired st.sessionTimeout now x) hnodup k s hs
    by_cases he : isExpired st.sessionTimeout now s = true
    · rw [if_pos he]
      simpa [cleanExpiredSessions, he] using hh
    · rw [if_neg he]
      simpa [cleanExpiredSessions, he] using hh
  · rintro ⟨p, hp, hexp⟩
    unfold cleanExpiredSessions
    simp only
    rw [List.length_pos]
    intro hnil
    have hmem : p ∈ st.sessions.filter
        (fun q => isExpired st.sessionTimeout now q.2) :=
      List.mem_filter.mpr ⟨hp, by simpa using hexp⟩
    rw [hnil] at hmem
    simp at hmem
  · unfold cleanExpiredSessions
    simp only
    rw [List.filter_filter]
    have hfalse : ∀ a : String × UserSession,
        ((¬ isExpired st.sessionTimeout now a.2 : Bool) &&
          (isExpired st.sessionTimeout now a.2 : Bool)) = false := by
      intro a
      cases isExpired st.sessionTimeout now a.2 <;> simp
    simp [hfalse]

/-- Claim C7 witness: sweeping `expiredStore` at time 100 removes a
session (positive count) and a second sweep removes nothing. -/
theorem claimC7_witness :
    0 < (cleanExpiredSessions expiredStore 100).1 ∧
    (cleanExpiredSessions (cleanExpiredSessions expiredStore 100).2 100).1 = 0 :=
  ⟨(claimC7_sweep_contract expiredStore 100).2.2.1
      ⟨(phoneA, { phoneNumber := phoneA, createdAt := 0, lastActivity := 0 }),
        by decide, by decide⟩,
   (claimC7_sweep_contract expiredStore 100).2.2.2⟩

/-- Claim C5 counterexample: with an expired entry for the key and no
restorable database record, `update` returns none as the claim says,
but the store is modified (the expired entry is deleted by the embedded
`get`), so "modifies nothing" is false as stated. -/
theorem claimC5_counterexample :
    (updateSessionStr expiredStore 100 (some none) phoneA {}).1 = none ∧
    mapGet expiredStore.sessions phoneA =
      some { phoneNumber := phoneA, createdAt := 0, lastActivity := 0 } ∧
    mapGet (updateSessionStr expiredStore 100 (some none) phoneA {}).2.sessions
      phoneA = none := by
  refine ⟨?_, ?_, ?_⟩ <;> decide

/-- Claim C5 as amended: `update` returns none when `get` finds no live
or restorable session, and then changes nothing except that an expired
entry for the key is dropped (entries under other keys are untouched);
otherwise it merges the supplied fields into the fetched session,
leaving `phoneNumber` and `createdAt` untouched whatever the partial
contains, sets `lastActivity` to now, stores and returns the result. -/
theorem claimC5_update_contract (st : SessionStore) (now : Nat) (db : DbFetch)
    (k : String) (u : SessionUpdate) :
    ((getSessionStr st now db k).result = none →
      (updateSessionStr st now db k u).1 = none ∧
      (updateSessionStr st now db k u).2 = (getSessionStr st now db k).store ∧
      (∀ k2, k2 ≠ k →
        mapGet (updateSessionStr st now db k u).2.sessions k2 =
          mapGet st.sessions k2)) ∧
    (∀ s, (getSessionStr st now db k).result = some s →
      (updateSessionStr st now db k u).1 = some (applySafeUpdates s u now) ∧
      mapGet (updateSessionStr st now db k u).2.sessions k =
        some (applySafeUpdates s u now) ∧
      (applySafeUpdates s u now).phoneNumber = s.phoneNumber ∧
      (applySafeUpdates s u now).createdAt = s.createdAt ∧
      (applySafeUpdates s u now).lastActivity = now ∧
      (applySafeUpdates s u now).currentFlow = u.currentFlow.getD s.currentFlow ∧
      (applySafeUpdates s u now).userData = u.userData.getD s.userData ∧
      (applySafeUpdates s u now).userType = u.userType.getD s.userType) ∧
    (∀ s0, mapGet st.sessions k = some s0 →
      isExpired st.sessionTimeout now s0 = false →
      (updateSessionStr st now db k u).1 =
        some (applySafeUpdates { s0 with lastActivity := now } u now) ∧
      (applySafeUpdates { s0 with lastActivity := now } u now).phoneNumber =
        s0.phoneNumber ∧
      (applySafeUpdates { s0 with lastActivity := now } u now).createdAt =
        s0.createdAt) := by
  refine ⟨?_, ?_, ?_⟩
  · intro hg
    refine ⟨?_, ?_, ?_⟩
    · simp only [updateSessionStr, hg]
    · simp only [updateSessionStr, hg]
    · intro k2 hk2
      have hst : (updateSessionStr st now db k u).2 =
          (getSessionStr st now db k).store := by
        simp only [updateSessionStr, hg]
      rw [hst]
      exact getSessionStr_frame st now db k k2 hk2
  · intro s hg
    refine ⟨?_, ?_, rfl, rfl, rfl, rfl, rfl, rfl⟩
    · simp only [updateSessionStr, hg]
    · have hst : (updateSessionStr st now db k u).2 =
          { (getSessionStr st now db k).store with
            sessions := mapSet (getSessionStr st now db k).store.sessions k
              (applySafeUpdates s u now) } := by
        simp only [updateSessionStr, hg]
      rw [hst]
      simp only
      rw [mapGet_mapSet, if_pos rfl]
  · intro s0 hm hexp
    have hg : (getSessionStr st now db k).result =
        some { s0 with lastActivity := now } := by
      unfold getSessionStr
      rw [hm]
      simp [hexp]
    refine ⟨?_, rfl, rfl⟩
    simp only [updateSessionStr, hg]

/-- Claim C5 witness: updating the live session of `storeNameStep` with
a partial that tries to overwrite `phoneNumber` and `createdAt` leaves
both untouched. -/
theorem claimC5_witness :
    (updateSessionStr storeNameStep 100 (some none) phoneA probeUpdate).1 =
      some (applySafeUpdates { sessionNameStep with lastActivity := 100 }
        probeUpdate 100) ∧
    (applySafeUpdates { sessionNameStep with lastActivity := 100 }
      probeUpdate 100).phoneNumber = sessionNameStep.phoneNumber ∧
    (applySafeUpdates { sessionNameStep with lastActivity := 100 }
      probeUpdate 100).createdAt = sessionNameStep.createdAt :=
  (claimC5_update_contract storeNameStep 100 (some none) phoneA probeUpdate).2.2
    sessionNameStep (by decide) (by decide)

/-- Claim C10: every Session Store operation throws (an `Except.error`,
not a none/false result) when the key fails `assertValidPhoneNumber`
(non-string, trims to empty, or trimmed length below 7); the assertion
runs before any map access, so the map is untouched. -/
theorem claimC10_invalid_key_throws (st : SessionStore) (now : Nat)
    (db : DbFetch) (k : PhoneKey) (u : SessionUpdate)
    (h : validPhoneKey k = false) :
    (∃ e, getSession st now db k = Except.error e) ∧
    (∃ e, createSession st now k = Except.error e) ∧
    (∃ e, updateSession st now db k u = Except.error e) ∧
    (∃ e, deleteSession st k = Except.error e) := by
  have ha : ∃ e, assertValidPhoneNumber k = Except.error e := by
    cases k with
    | nonString => exact ⟨_, rfl⟩
    | str s =>
      simp only [validPhoneKey, decide_eq_false_iff_not, not_le] at h
      rw [assertValidPhoneNumber_str]
      by_cases h0 : (jsTrim s).length = 0
      · rw [if_pos h0]; exact ⟨_, rfl⟩
      · rw [if_neg h0, if_pos h]; exact ⟨_, rfl⟩
  obtain ⟨e, he⟩ := ha
  exact ⟨⟨e, by simp [getSession, he, Except.map]⟩,
         ⟨e, by simp [createSession, he, Except.map]⟩,
         ⟨e, by simp [updateSession, he, Except.map]⟩,
         ⟨e, by simp [deleteSession, he, Except.map]⟩⟩

/-- Claim C10 witness: the short key "123" makes all four operations
throw. -/
theorem claimC10_witness :
    (∃ e, getSession {} 0 (some none) (PhoneKey.str "123") = Except.error e) ∧
    (∃ e, createSession {} 0 (PhoneKey.str "123") = Except.error e) ∧
    (∃ e, updateSession {} 0 (some none) (PhoneKey.str "123") {} = Except.error e) ∧
    (∃ e, deleteSession {} (PhoneKey.str "123") = Except.error e) :=
  claimC10_invalid_key_throws {} 0 (some none) (PhoneKey.str "123") {} (by decide)


/-! Reduction lemmas for the confirmation step of the wizard. -/

theorem createShopFinal_err (env : BotEnv) (now : Nat) (phone : String)
    (session : UserSession) (o : BotOut) :
    (createShopFinal env now phone session o).err = o.err := by
  simp only [createShopFinal]
  cases hd : session.userData.shopCreation with
  | none => rfl
  | some draft =>
    simp only
    cases hc : ShopService.createShop env
        { name := draft.name, description := draft.description
          owner_phone := phone, community := session.community
          category := draft.category } with
    | ok newShop => rfl
    | error e => rfl

theorem handleText_confirm_one (env : BotEnv) (now : Nat) (phone : String)
    (session : UserSession) (st : SessionStore)
    (hflow : session.currentFlow = some "shop_confirmation") :
    handleTextMessage env now phone "1" session { store := st, sent := [] } =
      createShopFinal env now phone session { store := st, sent := [] } := by
  unfold handleTextMessage
  rw [if_neg (by decide : ¬ ("1" : String) ∈ globalCommands)]
  rw [hflow]
  have h1 : ¬ (some "shop_confirmation" = some "main_menu") := by decide
  have h2 : ¬ (some "shop_confirmation" = some "community_selection") := by decide
  have h3 : ¬ (some "shop_confirmation" = some "seller_menu") := by decide
  have h4 : ¬ (some "shop_confirmation" = some "buyer_menu") := by decide
  rw [if_neg h1, if_neg h2, if_neg h3, if_neg h4,
      if_pos (by decide : (some "shop_confirmation" = some "shop_name_input")
        ∨ (some "shop_confirmation" = some "shop_description_input")
        ∨ (some "shop_confirmation" = some "shop_category_select")
        ∨ (some "shop_confirmation" = some "shop_confirmation"))]
  unfold handleShopCreationFlow
  rw [if_neg (by decide : ¬ ("1" : String) = "cancel")]
  rw [hflow]
  rw [if_neg (by decide : ¬ (some "shop_confirmation" = some "shop_name_input")),
      if_neg (by decide : ¬ (some "shop_confirmation" = some "shop_description_input")),
      if_neg (by decide : ¬ (some "shop_confirmation" = some "shop_category_select")),
      if_pos (rfl : (some "shop_confirmation" : Option String) = some "shop_confirmation")]
  have hconf : handleShopConfirmation env now phone "1" session
      { store := st, sent := [] } =
      createShopFinal env now phone session { store := st, sent := [] } := by
    unfold handleShopConfirmation
    rw [if_pos rfl]
  rw [hconf]
  simp only [createShopFinal_err]

theorem createShop_success (env : BotEnv) (phone n d c : String)
    (co : Option String) (meta : ShopMeta)
    (howner : env.shopByOwner phone = Except.ok none)
    (htaken : env.nameTakenQ (jsTrim n) co = Except.ok false)
    (hins : env.insertShop = some meta)
    (hust : env.userStatusOk = true) :
    ShopService.createShop env
      { name := some n, description := some d, owner_phone := phone
        community := co, category := some c } =
      Except.ok
        { id := meta.id, name := jsTrim n, description := jsTrim d
          owner_phone := phone, community := co, category := some c
          status := "active", created_at := meta.created_at
          updated_at := meta.updated_at
          settings :=
            { delivery_available := false, pickup_available := true
              operating_hours :=
                { openTime := "08:00", closeTime := "18:00"
                  days := ["monday", "tuesday", "wednesday", "thursday",
                           "friday", "saturday"] }
              contact_whatsapp := phone, contact_address := none } } := by
  simp only [ShopService.createShop, ShopService.isShopNameTaken, howner,
    htaken, hins, hust]
  simp

theorem confirm_collision_run (env : BotEnv) (now : Nat) (phone : String)
    (session : UserSession) (st : SessionStore) (n d c comm : String)
    (hflow : session.currentFlow = some "shop_confirmation")
    (hdraft : session.userData.shopCreation =
      some { name := some n, description := some d, category := some c })
    (hcomm : session.community = some comm)
    (howner : env.shopByOwner phone = Except.ok none)
    (htaken : env.nameTakenQ (jsTrim n) (some comm) = Except.ok true) :
    handleTextMessage env now phone "1" session { store := st, sent := [] } =
      { store := st
        sent := [processingShopMsg,
          errorMsgText "Shop name is already taken in this community. Please choose a different name." true,
          sellerMenuFor session.userData]
        err := none } := by
  rw [handleText_confirm_one env now phone session st hflow]
  have hcs : ShopService.createShop env
      { name := some n, description := some d, owner_phone := phone
        community := session.community, category := some c } =
      Except.error "Shop name is already taken in this community. Please choose a different name." := by
    simp only [ShopService.createShop, howner, ShopService.isShopNameTaken,
      hcomm, htaken]
  simp only [createShopFinal, hdraft, hcs]
  simp [send, showSellerMenu]

theorem confirm_success_run (env : BotEnv) (now : Nat) (phone : String)
    (session : UserSession) (st : SessionStore) (n d c comm : String)
    (meta : ShopMeta)
    (hflow : session.currentFlow = some "shop_confirmation")
    (hdraft : session.userData.shopCreation =
      some { name := some n, description := some d, category := some c })
    (hcomm : session.community = some comm)
    (howner : env.shopByOwner phone = Except.ok none)
    (htaken : env.nameTakenQ (jsTrim n) (some comm) = Except.ok false)
    (hins : env.insertShop = some meta)
    (hust : env.userStatusOk = true) :
    handleTextMessage env now phone "1" session { store := st, sent := [] } =
      { store := (updateSessionStr st now env.db phone
          { currentFlow := some (some "seller_menu")
            userData := some { session.userData with
              shopCreation := none
              shopId := some meta.id } }).2
        sent := [processingShopMsg, successMsgText (jsTrim n),
          sellerMenuFor session.userData]
        err := none } := by
  rw [handleText_confirm_one env now phone session st hflow]
  have hcs : ShopService.createShop env
      { name := some n, description := some d, owner_phone := phone
        community := session.community, category := some c } =
      Except.ok
        { id := meta.id, name := jsTrim n, description := jsTrim d
          owner_phone := phone, community := session.community
          category := some c, status := "active"
          created_at := meta.created_at, updated_at := meta.updated_at
          settings :=
            { delivery_available := false, pickup_available := true
              operating_hours :=
                { openTime := "08:00", closeTime := "18:00"
                  days := ["monday", "tuesday", "wednesday", "thursday",
                           "friday", "saturday"] }
              contact_whatsapp := phone, contact_address := none } } := by
    rw [hcomm]
    exact createShop_success env phone n d c (some comm) meta howner htaken hins hust
  simp only [createShopFinal, hdraft, hcs]
  simp [send, showSellerMenu, botUpdate]

set_option maxRecDepth 8000

/-- Claim C1 (code bug): the validation branches of the wizard handlers
send their error reply but do not return, so the handler still stores
the value and advances the state.  Sending the 1-character name "a" in
`ShopNameInput` produces the "too short" reply *and* stores name "a"
into the draft, moving `currentFlow` to `shop_description_input`; an
out-of-range category index "99" in `ShopCategorySelect` produces the
invalid-selection reply *and* stores a null category, moving
`currentFlow` to `shop_confirmation` — the claim (and spec §9's stated
intent) requires the state to remain unchanged with nothing stored. -/
theorem claimC1_validation_fallthrough_bug :
    ((handleTextMessage envDefault 100 phoneA "a" sessionNameStep
        { store := storeNameStep, sent := [] }).sent =
      [tooShortNameMsg, nameSavedMsg "a"] ∧
      (mapGet (handleTextMessage envDefault 100 phoneA "a" sessionNameStep
        { store := storeNameStep, sent := [] }).store.sessions phoneA).map
          (fun s => s.currentFlow) = some (some "shop_description_input") ∧
      (mapGet (handleTextMessage envDefault 100 phoneA "a" sessionNameStep
        { store := storeNameStep, sent := [] }).store.sessions phoneA).map
          (fun s => s.userData.shopCreation) = some (some { name := some "a" })) ∧
    ((handleTextMessage envDefault 100 phoneA "99" sessionCategoryStep
        { store := storeCategoryStep, sent := [] }).sent =
      [invalidCategoryMsg,
       confirmationMsg "Blue Shop" "Fresh goods sold daily" "null" "BAMEKA town"] ∧
      (mapGet (handleTextMessage envDefault 100 phoneA "99" sessionCategoryStep
        { store := storeCategoryStep, sent := [] }).store.sessions phoneA).map
          (fun s => s.currentFlow) = some (some "shop_confirmation")) := by
  refine ⟨⟨?_, ?_, ?_⟩, ⟨?_, ?_⟩⟩ <;> decide

/-- Claim C3 (code bug): at `ShopConfirmation`, input "2" does move the
flow to `shop_category_select` but — the source's `case '2'` has no
`break` — falls through into the cancellation branch, sending the
cancellation notice and the seller menu (the claim requires no other
side effect); and input "3" sends the cancellation notice and displays
the seller menu but neither discards the draft nor changes
`currentFlow` to `seller_menu` (it stays `shop_confirmation` and the
draft is intact), against the claimed transition. -/
theorem claimC3_confirmation_branches_bug :
    ((handleTextMessage envDefault 100 phoneA "2" sessionConfirmStep
        { store := storeConfirmStep, sent := [] }).sent =
      [backToCategoryMsg, cancelledMsg, sellerMenuText "BAMEKA town"] ∧
      (mapGet (handleTextMessage envDefault 100 phoneA "2" sessionConfirmStep
        { store := storeConfirmStep, sent := [] }).store.sessions phoneA).map
          (fun s => s.currentFlow) = some (some "shop_category_select")) ∧
    ((handleTextMessage envDefault 100 phoneA "3" sessionConfirmStep
        { store := storeConfirmStep, sent := [] }).sent =
      [cancelledMsg, sellerMenuText "BAMEKA town"] ∧
      (mapGet (handleTextMessage envDefault 100 phoneA "3" sessionConfirmStep
        { store := storeConfirmStep, sent := [] }).store.sessions phoneA).map
          (fun s => s.currentFlow) = some (some "shop_confirmation") ∧
      (mapGet (handleTextMessage envDefault 100 phoneA "3" sessionConfirmStep
        { store := storeConfirmStep, sent := [] }).store.sessions phoneA).map
          (fun s => s.userData.shopCreation) = some (some draftFull)) := by
  refine ⟨⟨?_, ?_⟩, ⟨?_, ?_, ?_⟩⟩ <;> decide

/-- Claim C8: `handleTextMessage` checks the global commands "help",
"menu", "start", "0" before any state-specific dispatch; for a live
session and any `currentFlow` whatsoever, such a message sets
`currentFlow` to `main_menu` and displays only the main menu. -/
theorem claimC8_global_commands (env : BotEnv) (now : Nat) (phone msg : String)
    (session s0 : UserSession) (st : SessionStore)
    (hmsg : msg ∈ globalCommands)
    (hs : mapGet st.sessions phone = some s0)
    (hfresh : isExpired st.sessionTimeout now s0 = false) :
    (handleTextMessage env now phone msg session
      { store := st, sent := [] }).sent = [mainMenuText] ∧
    ∃ s2, mapGet (handleTextMessage env now phone msg session
        { store := st, sent := [] }).store.sessions phone = some s2 ∧
      s2.currentFlow = some "main_menu" := by
  have hred : handleTextMessage env now phone msg session
      { store := st, sent := [] } =
      showMainMenu env now phone { store := st, sent := [] } := by
    unfold handleTextMessage
    rw [if_pos hmsg]
  rw [hred]
  unfold showMainMenu botUpdate send
  rw [updateSessionStr_live st now env.db phone _ s0 hs hfresh]
  constructor
  · simp
  · refine ⟨applySafeUpdates { s0 with lastActivity := now }
      { currentFlow := some (some "main_menu") } now, ?_, rfl⟩
    simp only
    rw [mapGet_mapSet, if_pos rfl]

/-- Claim C8 witness: "menu" sent from the confirmation step routes to
the main menu. -/
theorem claimC8_witness :
    (handleTextMessage envDefault 100 phoneA "menu" sessionConfirmStep
      { store := storeConfirmStep, sent := [] }).sent = [mainMenuText] ∧
    ∃ s2, mapGet (handleTextMessage envDefault 100 phoneA "menu"
        sessionConfirmStep { store := storeConfirmStep, sent := [] }).store.sessions
        phoneA = some s2 ∧
      s2.currentFlow = some "main_menu" :=
  claimC8_global_commands envDefault 100 phoneA "menu" sessionConfirmStep
    sessionConfirmStep storeConfirmStep (by decide) (by decide) (by decide)

/-- Claim C2: accepting at `ShopConfirmation` (input "1") commits the
draft through `ShopService.createShop`; on success the draft is cleared,
`shopId` recorded and `currentFlow` becomes `seller_menu`; when the
collaborator reports a shop-name collision, its error message is
surfaced verbatim through `sendErrorMessage`, the seller menu is
displayed (not the name-entry prompt — the full send list is exactly
processing, error, seller menu), the store is untouched and the flow
stays where it was, so there is no retry. -/
theorem claimC2_confirmation_commit (env : BotEnv) (now : Nat) (phone : String)
    (session : UserSession) (st : SessionStore) (n d c comm : String)
    (meta : ShopMeta)
    (hflow : session.currentFlow = some "shop_confirmation")
    (hdraft : session.userData.shopCreation =
      some { name := some n, description := some d, category := some c })
    (hcomm : session.community = some comm)
    (howner : env.shopByOwner phone = Except.ok none)
    (hs : mapGet st.sessions phone = some session)
    (hfresh : isExpired st.sessionTimeout now session = false) :
    (env.nameTakenQ (jsTrim n) (some comm) = Except.ok false →
      env.insertShop = some meta → env.userStatusOk = true →
      (handleTextMessage env now phone "1" session
        { store := st, sent := [] }).sent =
        [processingShopMsg, successMsgText (jsTrim n),
         sellerMenuFor session.userData] ∧
      ∃ s2, mapGet (handleTextMessage env now phone "1" session
          { store := st, sent := [] }).store.sessions phone = some s2 ∧
        s2.currentFlow = some "seller_menu" ∧
        s2.userData.shopCreation = none ∧
        s2.userData.shopId = some meta.id) ∧
    (env.nameTakenQ (jsTrim n) (some comm) = Except.ok true →
      (handleTextMessage env now phone "1" session
        { store := st, sent := [] }).store = st ∧
      (handleTextMessage env now phone "1" session
        { store := st, sent := [] }).sent =
        [processingShopMsg,
         errorMsgText "Shop name is already taken in this community. Please choose a different name." true,
         sellerMenuFor session.userData] ∧
      (mapGet (handleTextMessage env now phone "1" session
        { store := st, sent := [] }).store.sessions phone).map
          (fun s => s.currentFlow) = some (some "shop_confirmation")) := by
  constructor
  · intro htaken hins hust
    rw [confirm_success_run env now phone session st n d c comm meta hflow
      hdraft hcomm howner htaken hins hust]
    refine ⟨rfl, ?_⟩
    rw [updateSessionStr_live st now env.db phone _ session hs hfresh]
    refine ⟨applySafeUpdates { session with lastActivity := now }
      { currentFlow := some (some "seller_menu")
        userData := some { session.userData with
          shopCreation := none
          shopId := some meta.id } } now, ?_, rfl, rfl, rfl⟩
    simp only
    rw [mapGet_mapSet, if_pos rfl]
  · intro htaken
    rw [confirm_collision_run env now phone session st n d c comm hflow
      hdraft hcomm howner htaken]
    refine ⟨rfl, rfl, ?_⟩
    simp [hs, hflow]

/-- Claim C2 witness: the concrete confirmation-step session committed
successfully against collaborators that accept the insert. -/
theorem claimC2_witness :
    (handleTextMessage envInsertOk 100 phoneA "1" sessionConfirmStep
      { store := storeConfirmStep, sent := [] }).sent =
      [processingShopMsg, successMsgText (jsTrim "Blue Shop"),
       sellerMenuFor sessionConfirmStep.userData] ∧
    ∃ s2, mapGet (handleTextMessage envInsertOk 100 phoneA "1"
        sessionConfirmStep { store := storeConfirmStep, sent := [] }).store.sessions
        phoneA = some s2 ∧
      s2.currentFlow = some "seller_menu" ∧
      s2.userData.shopCreation = none ∧
      s2.userData.shopId = some ({ id := "shop-1" } : ShopMeta).id :=
  (claimC2_confirmation_commit envInsertOk 100 phoneA sessionConfirmStep
    storeConfirmStep "Blue Shop" "Fresh goods sold daily" "Electronics"
    "BAMEKA" { id := "shop-1" } rfl rfl rfl rfl (by decide) (by decide)).1
    rfl rfl rfl

/-- Claim C9: confirming a draft whose fields are the values stored at
the Name, Description and Category steps (trim-fixed strings for name
and description, as the steps always store trimmed values) persists a
Shop whose `name`, `description` and `category` exactly equal those
draft values; the same run records the new shop id in the session and
reports the same name in the success message. -/
theorem claimC9_draft_roundtrip (env : BotEnv) (now : Nat) (phone : String)
    (session : UserSession) (st : SessionStore) (n d c comm : String)
    (meta : ShopMeta)
    (hn : jsTrim n = n) (hd : jsTrim d = d)
    (hflow : session.currentFlow = some "shop_confirmation")
    (hdraft : session.userData.shopCreation =
      some { name := some n, description := some d, category := some c })
    (hcomm : session.community = some comm)
    (howner : env.shopByOwner phone = Except.ok none)
    (htaken : env.nameTakenQ (jsTrim n) (some comm) = Except.ok false)
    (hins : env.insertShop = some meta)
    (hust : env.userStatusOk = true)
    (hs : mapGet st.sessions phone = some session)
    (hfresh : isExpired st.sessionTimeout now session = false) :
    ∃ shop, ShopService.createShop env
        { name := some n, description := some d, owner_phone := phone
          community := session.community, category := some c } =
        Except.ok shop ∧
      shop.name = n ∧ shop.description = d ∧ shop.category = some c ∧
      (handleTextMessage env now phone "1" session
        { store := st, sent := [] }).sent =
        [processingShopMsg, successMsgText n, sellerMenuFor session.userData] ∧
      ∃ s2, mapGet (handleTextMessage env now phone "1" session
          { store := st, sent := [] }).store.sessions phone = some s2 ∧
        s2.userData.shopId = some shop.id ∧
        s2.userData.shopCreation = none := by
  refine ⟨{ id := meta.id, name := jsTrim n, description := jsTrim d
            owner_phone := phone, community := session.community
            category := some c, status := "active"
            created_at := meta.created_at, updated_at := meta.updated_at
            settings :=
              { delivery_available := false, pickup_available := true
                operating_hours :=
                  { openTime := "08:00", closeTime := "18:00"
                    days := ["monday", "tuesday", "wednesday", "thursday",
                             "friday", "saturday"] }
                contact_whatsapp := phone, contact_address := none } },
    ?_, hn, hd, rfl, ?_, ?_⟩
  · rw [hcomm]
    exact createShop_success env phone n d c (some comm) meta howner htaken hins hust
  · rw [confirm_success_run env now phone session st n d c comm meta hflow
      hdraft hcomm howner htaken hins hust]
    rw [hn]
  · rw [confirm_success_run env now phone session st n d c comm meta hflow
      hdraft hcomm howner htaken hins hust]
    rw [updateSessionStr_live st now env.db phone _ session hs hfresh]
    refine ⟨applySafeUpdates { session with lastActivity := now }
      { currentFlow := some (some "seller_menu")
        userData := some { session.userData with
          shopCreation := none
          shopId := some meta.id } } now, ?_, rfl, rfl⟩
    simp only
    rw [mapGet_mapSet, if_pos rfl]

/-- Claim C9 witness: the concrete draft of `sessionConfirmStep` is
persisted with exactly its stored name, description and category. -/
theorem claimC9_witness :
    ∃ shop, ShopService.createShop envInsertOk
        { name := some "Blue Shop", description := some "Fresh goods sold daily"
          owner_phone := phoneA, community := sessionConfirmStep.community
          category := some "Electronics" } = Except.ok shop ∧
      shop.name = "Blue Shop" ∧ shop.description = "Fresh goods sold daily" ∧
      shop.category = some "Electronics" ∧
      (handleTextMessage envInsertOk 100 phoneA "1" sessionConfirmStep
        { store := storeConfirmStep, sent := [] }).sent =
        [processingShopMsg, successMsgText "Blue Shop",
         sellerMenuFor sessionConfirmStep.userData] ∧
      ∃ s2, mapGet (handleTextMessage envInsertOk 100 phoneA "1"
          sessionConfirmStep { store := storeConfirmStep, sent := [] }).store.sessions
          phoneA = some s2 ∧
        s2.userData.shopId = some shop.id ∧
        s2.userData.shopCreation = none :=
  claimC9_draft_roundtrip envInsertOk 100 phoneA sessionConfirmStep
    storeConfirmStep "Blue Shop" "Fresh goods sold daily" "Electronics"
    "BAMEKA" { id := "shop-1" } (by decide) (by decide) rfl rfl rfl rfl rfl
    rfl rfl (by decide) (by decide)

end Marketplace
